import Mathlib

/-!
Verification development for the `axn-voltage` EEG recorder.

This file shallowly embeds the parts of the repository that the properties
below are about:

* `src/data_storage.py` — class `DataStorage`: the chunked session recorder
  (`start_session`, `add_data_chunk`, `stop_session`, `load_session`, and the
  private helpers `_should_create_new_chunk`, `_start_new_chunk`,
  `_save_current_chunk`, `_save_session_file`).
* `src/device_manager.py` — `BrainBitManager._continuous_monitoring_loop`
  (the per-cycle fan-out to the live callback and the recording callback)
  and `BrainBitManager.connect_device` (the bounded connection wait).

Modelling conventions:

* Wall-clock instants (`datetime.utcnow()`) are `Nat` values supplied
  explicitly to each operation; `total_seconds` of a difference becomes `Nat`
  subtraction.
* Python dict objects are association lists `List (String × String)`; object
  identity (aliasing) is modelled with an explicit heap `Nat → Dict` indexed
  by object reference, since `add_data_chunk` mutates its argument in place
  and buffers the same object.
* The filesystem is an association list from path to file content, newest
  entry first; `json.dump` followed by `json.load` of a Python dict of
  strings/ints/lists is the identity, so a written file stores the record
  itself.  A write that raises (`OSError` etc.) is modelled by a `Bool`
  oracle passed to the operation, and `os.path.getsize` of the fresh chunk
  file by a `Nat` oracle.
* The count cap appears in the source as the literal `1000` in
  `_should_create_new_chunk` (`len(self.data_buffer) > 1000`) and the time
  threshold as the attribute `chunk_size_minutes = 5`; both are carried as
  state fields (`size_cap`, `chunk_size_minutes`) so that properties
  quantified over thresholds can be stated; `initStorage` fixes the source
  defaults.
-/

/-- A Python dict with string keys and (stringly-modelled) values, in
insertion order, as used for EEG data chunks. -/
abbrev Dict := List (String × String)

/-- Test for `'timestamp' in data_chunk` — key membership on a dict. -/
def dictHasKey (d : Dict) (k : String) : Bool :=
  d.any (fun p => p.1 == k)

/-- Assignment `data_chunk['timestamp'] = v` for an absent key: Python appends the new
key at the end of the insertion order. -/
def dictInsert (d : Dict) (k v : String) : Dict :=
  d ++ [(k, v)]

/-- One entry of `self.current_session['chunks']`, as built in
`DataStorage._save_current_chunk` (src/data_storage.py lines 165-172). -/
structure ChunkInfo where
  chunk_id : Nat
  filename : String
  start_time : Nat
  end_time : Nat
  sample_count : Nat
  file_size : Nat
deriving Repr, DecidableEq

/-- The content of a chunk file, as built in
`DataStorage._save_current_chunk` (src/data_storage.py lines 148-157):
a `chunk_info` header plus the buffered samples. -/
structure ChunkFile where
  chunk_id : Nat
  session_id : String
  start_time : Nat
  end_time : Nat
  sample_count : Nat
  data : List Dict
deriving Repr, DecidableEq

/-- The session record `self.current_session`: the caller's metadata
(`session_id`, `start_time` from `app.py`'s `handle_start_recording`) plus
the `chunks` list added by `start_session` and the summary fields added by
`_save_session_file`.  Fields that the source adds only later are `Option`s,
`none` meaning the dict key is absent. -/
structure SessionRec where
  session_id : String
  start_time : Nat
  chunks : List ChunkInfo
  end_time : Option Nat
  total_chunks : Option Nat
  total_samples : Option Nat
  duration_seconds : Option Nat
deriving Repr, DecidableEq

/-- Content of a file on disk: either a chunk file or a session manifest. -/
inductive FileData where
  | chunk (c : ChunkFile)
  | session (r : SessionRec)
deriving Repr, DecidableEq

/-- The state of a `DataStorage` instance together with the object heap and
the data directory's files (newest first). -/
structure StorageState where
  heap : Nat → Dict
  files : List (String × FileData)
  data_dir : String
  chunk_size_minutes : Nat
  size_cap : Nat
  current_session : Option SessionRec
  chunk_start_time : Option Nat
  data_buffer : List Nat

/-- Model of `DataStorage.__init__` with the source's defaults
(`data_dir="data"`, `chunk_size_minutes = 5`, count cap literal `1000`),
over a given heap and an empty data directory. -/
def initStorage (heap : Nat → Dict) : StorageState :=
  { heap := heap
    files := []
    data_dir := "data"
    chunk_size_minutes := 5
    size_cap := 1000
    current_session := none
    chunk_start_time := none
    data_buffer := [] }

/-- The metadata dict `app.py` passes to `start_session`
(`recording_session`): its `session_id` and `start_time`. -/
structure SessionInfo where
  session_id : String
  start_time : Nat
deriving Repr, DecidableEq

/-- Model of `DataStorage.start_session` (src/data_storage.py lines 27-39): copy the
caller's metadata, set `chunks` to `[]`, reset the rotation clock and the
buffer. -/
def start_session (info : SessionInfo) (now : Nat) (s : StorageState) :
    StorageState :=
  { s with
    current_session := some
      { session_id := info.session_id
        start_time := info.start_time
        chunks := []
        end_time := none
        total_chunks := none
        total_samples := none
        duration_seconds := none }
    chunk_start_time := some now
    data_buffer := [] }

/-- Model of `DataStorage._should_create_new_chunk` (src/data_storage.py lines
119-131): rotate when the time since the rotation clock exceeds the time
threshold or the buffered count exceeds the count cap (both strict `>`). -/
def should_create_new_chunk (now : Nat) (s : StorageState) : Bool :=
  match s.chunk_start_time with
  | none => false
  | some t =>
      decide (s.chunk_size_minutes * 60 < now - t) ||
        decide (s.size_cap < s.data_buffer.length)

/-- Model of `DataStorage._start_new_chunk` (src/data_storage.py lines 133-136). -/
def start_new_chunk (now : Nat) (s : StorageState) : StorageState :=
  { s with chunk_start_time := some now, data_buffer := [] }

/-- Format `f"{chunk_id:03d}"` — zero-pad to at least three digits. -/
def pad3 (n : Nat) : String :=
  if n < 10 then "00" ++ toString n
  else if n < 100 then "0" ++ toString n
  else toString n

/-- The chunk filename `f"{session_id}_chunk_{chunk_id:03d}.json"`. -/
def chunk_filename (sid : String) (cid : Nat) : String :=
  sid ++ "_chunk_" ++ pad3 cid ++ ".json"

/-- Model of `DataStorage._save_current_chunk` (src/data_storage.py lines 138-179).
`writeOk` models whether `open`/`json.dump` succeeds; `fsize` is the byte
size `os.path.getsize` reports for the fresh file.  On success the chunk
file is written and its `ChunkInfo` appended to the session's `chunks`; on
failure the exception is caught and logged and NOTHING is appended (the
`append` sits inside the `try`).  The method is only ever called with an
open session; on `None` the source would raise, modelled as the identity. -/
def save_current_chunk (now : Nat) (writeOk : Bool) (fsize : Nat)
    (s : StorageState) : StorageState :=
  match s.current_session with
  | none => s
  | some sess =>
      if s.data_buffer.isEmpty then s
      else
        let cid := sess.chunks.length + 1
        let fname := chunk_filename sess.session_id cid
        let path := s.data_dir ++ "/" ++ fname
        let cfile : ChunkFile :=
          { chunk_id := cid
            session_id := sess.session_id
            start_time := s.chunk_start_time.getD 0
            end_time := now
            sample_count := s.data_buffer.length
            data := s.data_buffer.map s.heap }
        if writeOk then
          let cinfo : ChunkInfo :=
            { chunk_id := cid
              filename := fname
              start_time := s.chunk_start_time.getD 0
              end_time := now
              sample_count := s.data_buffer.length
              file_size := fsize }
          { s with
            files := (path, FileData.chunk cfile) :: s.files
            current_session := some { sess with chunks := sess.chunks ++ [cinfo] } }
        else s

/-- Model of `DataStorage.add_data_chunk` (src/data_storage.py lines 41-62): with no
active session, print and return; otherwise stamp the caller's dict IN PLACE
when it lacks a `'timestamp'` key, append the same object (reference) to the
buffer, and rotate if a threshold is now exceeded. -/
def add_data_chunk (ref : Nat) (now : Nat) (writeOk : Bool) (fsize : Nat)
    (s : StorageState) : StorageState :=
  match s.current_session with
  | none => s
  | some _ =>
      let d := s.heap ref
      let heap' :=
        if dictHasKey d "timestamp" then s.heap
        else Function.update s.heap ref (dictInsert d "timestamp" (toString now))
      let s1 := { s with heap := heap', data_buffer := s.data_buffer ++ [ref] }
      if should_create_new_chunk now s1 then
        start_new_chunk now (save_current_chunk now writeOk fsize s1)
      else s1

/-- Model of `DataStorage._save_session_file` (src/data_storage.py lines 181-208):
set `end_time`, `total_chunks`, `total_samples` on the session record;
set `duration_seconds = end_time - start_time` ONLY when the `chunks` list
is non-empty; then try to write the manifest, returning its path even when
the write fails.  Only called with an open session (`stop_session` guards);
on `None` the source would raise, modelled as the identity with path "". -/
def save_session_file (now : Nat) (manifestOk : Bool) (s : StorageState) :
    StorageState × String :=
  match s.current_session with
  | none => (s, "")
  | some sess =>
      let final : SessionRec :=
        { sess with
          end_time := some now
          total_chunks := some sess.chunks.length
          total_samples := some (sess.chunks.map (fun c => c.sample_count)).sum
          duration_seconds :=
            if sess.chunks.isEmpty then sess.duration_seconds
            else some (now - sess.start_time) }
      let path := s.data_dir ++ "/" ++ sess.session_id ++ "_session.json"
      let files' :=
        if manifestOk then (path, FileData.session final) :: s.files else s.files
      ({ s with current_session := some final, files := files' }, path)

/-- Model of `DataStorage.stop_session` (src/data_storage.py lines 64-89): with no
active session print "No active session to stop" and return `None`
(modelled by the `none` result) leaving the state untouched; otherwise flush
a non-empty buffer as a final chunk, write the manifest, reset the session
state and return the manifest path. -/
def stop_session (now : Nat) (writeOk manifestOk : Bool) (fsize : Nat)
    (s : StorageState) : StorageState × Option String :=
  match s.current_session with
  | none => (s, none)
  | some _ =>
      let s1 := if s.data_buffer.isEmpty then s
                else save_current_chunk now writeOk fsize s
      let p := save_session_file now manifestOk s1
      ({ p.1 with current_session := none, data_buffer := [] }, some p.2)

/-- Model of `DataStorage.load_session` (src/data_storage.py lines 102-117): parse
the file at the given path, `none` on any error (missing file). -/
def load_session (path : String) (s : StorageState) : Option FileData :=
  s.files.lookup path

/-- One `add_data_chunk` call of a recording run: the sample object passed,
the wall clock at the call, whether a chunk write triggered now would
succeed, and the byte size the OS would report for it. -/
structure AddEv where
  ref : Nat
  now : Nat
  writeOk : Bool
  fsize : Nat
deriving Repr, DecidableEq

/-- Run a sequence of `add_data_chunk` calls. -/
def runAdds (evs : List AddEv) (s : StorageState) : StorageState :=
  evs.foldl (fun s e => add_data_chunk e.ref e.now e.writeOk e.fsize s) s

/-- The sum `sum(chunk['sample_count'] for chunk in chunks)`. -/
def chunkCountSum (l : List ChunkInfo) : Nat :=
  (l.map (fun c => c.sample_count)).sum

/-- Samples held by the recorder: those already flushed into chunks of the
open session plus those still in the in-memory buffer (0 with no session). -/
def tally (s : StorageState) : Nat :=
  match s.current_session with
  | some sess => chunkCountSum sess.chunks + s.data_buffer.length
  | none => 0

/-- The manifest path `stop_session` returns for a session. -/
def manifestPath (s : StorageState) (sess : SessionRec) : String :=
  s.data_dir ++ "/" ++ sess.session_id ++ "_session.json"

/-- Every `ChunkInfo` of the session is backed by a chunk file on disk whose
header carries the same `sample_count`. -/
def chunksOnDisk (s : StorageState) (sess : SessionRec) : Prop :=
  ∀ c ∈ sess.chunks, ∃ cf : ChunkFile,
    (s.data_dir ++ "/" ++ c.filename, FileData.chunk cf) ∈ s.files ∧
    cf.sample_count = c.sample_count

/-- Recording-run invariant: the session is open and its chunk entries are
backed on disk. -/
def openInv (s : StorageState) : Prop :=
  ∃ sess, s.current_session = some sess ∧ chunksOnDisk s sess

/-! ## Monitoring loop (`src/device_manager.py`)

`BrainBitManager._continuous_monitoring_loop` (lines 307-329): each cycle
collects a data chunk and, inside ONE `try` block, first calls the live
callback (`self._data_callback`), then the recording callback
(`self._recording_callback`).  An exception from either is caught by the
single `except` at the loop level, which logs and continues with the next
cycle — so an exception in the live callback skips the recording callback
for that cycle. -/

/-- One cycle of the monitoring loop: the collected data chunk (`none` when
`_collect_data_chunk` returns `None`), and whether each callback would raise
if invoked this cycle. -/
structure LoopCycle where
  sample : Option Nat
  liveRaises : Bool
  recRaises : Bool
deriving Repr, DecidableEq

/-- Which callback received the cycle's data chunk.  A callback "received"
the chunk when it was invoked with it (even if it then raised). -/
structure DeliveryResult where
  liveGot : Option Nat
  recGot : Option Nat
deriving Repr, DecidableEq

/-- One iteration of `_continuous_monitoring_loop`'s body, with `liveSet` /
`recSet` telling whether `_data_callback` / `_recording_callback` are
registered.  The loop itself continues to the next cycle in every case
(the `except` swallows the exception). -/
def monitoringCycle (liveSet recSet : Bool) (c : LoopCycle) : DeliveryResult :=
  match c.sample with
  | none => { liveGot := none, recGot := none }
  | some x =>
      if liveSet then
        if c.liveRaises then { liveGot := some x, recGot := none }
        else { liveGot := some x, recGot := if recSet then some x else none }
      else { liveGot := none, recGot := if recSet then some x else none }

/-- A run of the monitoring loop over a finite schedule of cycles (the loop
exits when `_stop_monitoring` is set or the device disconnects; the schedule
lists the cycles executed before that). -/
def monitoringRun (liveSet recSet : Bool) (cycles : List LoopCycle) :
    List DeliveryResult :=
  cycles.map (monitoringCycle liveSet recSet)

/-- The data chunks the recording callback received during a run, in order. -/
def recDelivered (liveSet recSet : Bool) (cycles : List LoopCycle) : List Nat :=
  (monitoringRun liveSet recSet cycles).filterMap (fun r => r.recGot)

/-- The data chunks the live callback received during a run, in order. -/
def liveDelivered (liveSet recSet : Bool) (cycles : List LoopCycle) : List Nat :=
  (monitoringRun liveSet recSet cycles).filterMap (fun r => r.liveGot)

/-! ## `connect_device` (`src/device_manager.py` lines 101-175)

The whole method body is wrapped in `try/except` returning `False`; after
the sensor object is established it checks `sensor.state` once, then polls
`sensor.state` in a `for i in range(max_wait * 10)` loop (at most 150
reads), each read protected by an inner `try` whose `except` just
continues.  Reads of `.state` are modelled by an oracle `reads : Nat →
StateRead`; occurrence 0 is the pre-loop check, occurrences 1..150 the loop
iterations. -/

/-- The vendor SDK's sensor state, reduced to what the code compares
against (`SensorState.StateInRange`). -/
inductive SensorState where
  | inRange
  | outOfRange
deriving Repr, DecidableEq

/-- Outcome of one read of `sensor.state`: a value, or a raised exception. -/
inductive StateRead where
  | val (st : SensorState)
  | err
deriving Repr, DecidableEq

/-- The environment of one `connect_device` call. -/
structure ConnectEnv where
  deviceKnown : Bool
  hasConnectAttr : Bool
  sdkAndScanner : Bool
  createOk : Bool
  hasState : Bool
  reads : Nat → StateRead

/-- Constant `max_wait = 15` seconds (line 151); the loop runs `max_wait * 10`
iterations of 0.1s each. -/
def max_wait : Nat := 15

/-- The `for i in range(max_wait * 10)` wait loop: per iteration, if
`hasattr(self.sensor, 'state') and self.sensor.state == StateInRange`
return `True`; a raised read is caught by the inner `except` and the loop
continues; when the range is exhausted return `False` (timeout). -/
def connectPollLoop (hasState : Bool) (reads : Nat → StateRead) :
    Nat → Nat → Bool
  | 0, _ => false
  | fuel + 1, i =>
      if hasState && decide (reads i = StateRead.val SensorState.inRange) then
        true
      else connectPollLoop hasState reads fuel (i + 1)

/-- Model of `BrainBitManager.connect_device`: unknown device id, missing
scanner/SDK, or a failed `create_sensor` return `False`; then the pre-loop
state check (an exception here hits the OUTER `except` and returns
`False`); then the bounded wait loop. -/
def connect_device (e : ConnectEnv) : Bool :=
  if !e.deviceKnown then false
  else if !e.hasConnectAttr && !e.sdkAndScanner then false
  else if !e.hasConnectAttr && !e.createOk then false
  else if e.hasState then
    match e.reads 0 with
    | StateRead.err => false
    | StateRead.val st =>
        if st = SensorState.inRange then true
        else connectPollLoop e.hasState e.reads (max_wait * 10) 1
  else connectPollLoop e.hasState e.reads (max_wait * 10) 1

/-! ## Basic lemmas about the storage operations -/

theorem isEmpty_append_singleton {α : Type} (l : List α) (a : α) :
    (l ++ [a]).isEmpty = false := by
  cases l <;> rfl

theorem save_current_chunk_fail (now fsize : Nat) (s : StorageState) :
    save_current_chunk now false fsize s = s := by
  unfold save_current_chunk
  cases h : s.current_session <;> simp

theorem save_current_chunk_ok (now fsize : Nat) (s : StorageState)
    (sess : SessionRec) (h : s.current_session = some sess)
    (hb : s.data_buffer.isEmpty = false) :
    save_current_chunk now true fsize s =
      { s with
        files :=
          (s.data_dir ++ "/" ++ chunk_filename sess.session_id (sess.chunks.length + 1),
            FileData.chunk
              { chunk_id := sess.chunks.length + 1
                session_id := sess.session_id
                start_time := s.chunk_start_time.getD 0
                end_time := now
                sample_count := s.data_buffer.length
                data := s.data_buffer.map s.heap }) :: s.files
        current_session := some
          { sess with chunks := sess.chunks ++
              [{ chunk_id := sess.chunks.length + 1
                 filename := chunk_filename sess.session_id (sess.chunks.length + 1)
                 start_time := s.chunk_start_time.getD 0
                 end_time := now
                 sample_count := s.data_buffer.length
                 file_size := fsize }] } } := by
  unfold save_current_chunk
  rw [h]
  simp [hb]

/-- The heap after `add_data_chunk` stamps the caller's dict (a helper for
stating lemmas; `add_data_chunk` itself is the model of the source). -/
def stampHeap (s : StorageState) (ref now : Nat) : Nat → Dict :=
  if dictHasKey (s.heap ref) "timestamp" then s.heap
  else Function.update s.heap ref (dictInsert (s.heap ref) "timestamp" (toString now))

/-- The tail of `add_data_chunk` after the buffer append: rotate if a
threshold is exceeded (helper for stating lemmas). -/
def rotateIfNeeded (now : Nat) (writeOk : Bool) (fsize : Nat)
    (s1 : StorageState) : StorageState :=
  if should_create_new_chunk now s1 then
    start_new_chunk now (save_current_chunk now writeOk fsize s1)
  else s1

theorem add_data_chunk_eq (ref now : Nat) (writeOk : Bool) (fsize : Nat)
    (s : StorageState) (sess : SessionRec) (h : s.current_session = some sess) :
    add_data_chunk ref now writeOk fsize s =
      rotateIfNeeded now writeOk fsize
        { s with heap := stampHeap s ref now,
                 data_buffer := s.data_buffer ++ [ref] } := by
  unfold add_data_chunk rotateIfNeeded stampHeap
  rw [h]

theorem chunkCountSum_append (l : List ChunkInfo) (c : ChunkInfo) :
    chunkCountSum (l ++ [c]) = chunkCountSum l + c.sample_count := by
  simp [chunkCountSum]

theorem rotateIfNeeded_step (now fsize : Nat) (s1 : StorageState)
    (sess : SessionRec) (h1 : s1.current_session = some sess)
    (hb : s1.data_buffer.isEmpty = false) :
    ∃ sess2,
      (rotateIfNeeded now true fsize s1).current_session = some sess2 ∧
      (rotateIfNeeded now true fsize s1).data_dir = s1.data_dir ∧
      tally (rotateIfNeeded now true fsize s1) = tally s1 ∧
      sess2.session_id = sess.session_id ∧
      sess2.start_time = sess.start_time ∧
      sess2.duration_seconds = sess.duration_seconds ∧
      (chunksOnDisk s1 sess → chunksOnDisk (rotateIfNeeded now true fsize s1) sess2) := by
  unfold rotateIfNeeded
  by_cases hc : should_create_new_chunk now s1 = true
  · rw [if_pos hc, save_current_chunk_ok now fsize s1 sess h1 hb]
    refine ⟨{ sess with chunks := sess.chunks ++
        [{ chunk_id := sess.chunks.length + 1
           filename := chunk_filename sess.session_id (sess.chunks.length + 1)
           start_time := s1.chunk_start_time.getD 0
           end_time := now
           sample_count := s1.data_buffer.length
           file_size := fsize }] }, ?_, ?_, ?_, ?_, ?_, ?_, ?_⟩
    · simp [start_new_chunk]
    · simp [start_new_chunk]
    · simp [start_new_chunk, tally, h1, chunkCountSum_append]
    · simp
    · simp
    · simp
    · intro hD c hcmem
      simp only [start_new_chunk] at hcmem ⊢
      rcases List.mem_append.mp hcmem with hold | hnew
      · obtain ⟨cf, hcf, hcnt⟩ := hD c hold
        exact ⟨cf, List.mem_cons_of_mem _ hcf, hcnt⟩
      · rcases List.mem_singleton.mp hnew with rfl
        exact ⟨_, List.mem_cons_self _ _, rfl⟩
  · rw [if_neg hc]
    exact ⟨sess, h1, rfl, rfl, rfl, rfl, rfl, fun hD => hD⟩

theorem add_step (ref now fsize : Nat) (s : StorageState) (sess : SessionRec)
    (h : s.current_session = some sess) :
    ∃ sess2,
      (add_data_chunk ref now true fsize s).current_session = some sess2 ∧
      (add_data_chunk ref now true fsize s).data_dir = s.data_dir ∧
      tally (add_data_chunk ref now true fsize s) = tally s + 1 ∧
      sess2.session_id = sess.session_id ∧
      sess2.start_time = sess.start_time ∧
      sess2.duration_seconds = sess.duration_seconds ∧
      (chunksOnDisk s sess → chunksOnDisk (add_data_chunk ref now true fsize s) sess2) := by
  rw [add_data_chunk_eq ref now true fsize s sess h]
  have h1 : ({ s with
      heap := stampHeap s ref now
      data_buffer := s.data_buffer ++ [ref] } : StorageState).current_session
        = some sess := h
  have hb : ({ s with
      heap := stampHeap s ref now
      data_buffer := s.data_buffer ++ [ref] } : StorageState).data_buffer.isEmpty
        = false := isEmpty_append_singleton _ _
  obtain ⟨sess2, hcur, hdir, htal, hsid, hst, hdur, hdisk⟩ :=
    rotateIfNeeded_step now fsize _ sess h1 hb
  refine ⟨sess2, hcur, hdir, ?_, hsid, hst, hdur, ?_⟩
  · rw [htal]
    simp [tally, h]
    ring
  · intro hD
    apply hdisk
    intro c hcmem
    obtain ⟨cf, hcf, hcnt⟩ := hD c hcmem
    exact ⟨cf, hcf, hcnt⟩

theorem runAdds_inv (evs : List AddEv) (s : StorageState) (sess : SessionRec)
    (hok : ∀ e ∈ evs, e.writeOk = true)
    (h : s.current_session = some sess) (hdisk : chunksOnDisk s sess) :
    ∃ sess2,
      (runAdds evs s).current_session = some sess2 ∧
      (runAdds evs s).data_dir = s.data_dir ∧
      tally (runAdds evs s) = tally s + evs.length ∧
      sess2.session_id = sess.session_id ∧
      sess2.start_time = sess.start_time ∧
      sess2.duration_seconds = sess.duration_seconds ∧
      chunksOnDisk (runAdds evs s) sess2 := by
  induction evs generalizing s sess with
  | nil => exact ⟨sess, h, rfl, by simp [runAdds], rfl, rfl, rfl, hdisk⟩
  | cons e evs ih =>
      have he : e.writeOk = true := hok e (List.mem_cons_self _ _)
      have hok' : ∀ e ∈ evs, e.writeOk = true :=
        fun x hx => hok x (List.mem_cons_of_mem _ hx)
      obtain ⟨sess1, hcur1, hdir1, htal1, hsid1, hst1, hdur1, hdisk1⟩ :=
        add_step e.ref e.now e.fsize s sess h
      have hrw : runAdds (e :: evs) s
          = runAdds evs (add_data_chunk e.ref e.now e.writeOk e.fsize s) := rfl
      rw [hrw, he]
      obtain ⟨sess2, hcur2, hdir2, htal2, hsid2, hst2, hdur2, hdisk2⟩ :=
        ih _ sess1 hok' hcur1 (hdisk1 hdisk)
      refine ⟨sess2, hcur2, ?_, ?_, ?_, ?_, ?_, hdisk2⟩
      · rw [hdir2, hdir1]
      · rw [htal2, htal1]
        simp [List.length_cons]
        ring
      · rw [hsid2, hsid1]
      · rw [hst2, hst1]
      · rw [hdur2, hdur1]

theorem eq_nil_of_isEmpty {α : Type} (l : List α) (h : l.isEmpty = true) :
    l = [] := by
  cases l with
  | nil => rfl
  | cons a t => simp [List.isEmpty] at h

theorem lookup_cons_self {β : Type} (k : String) (v : β)
    (l : List (String × β)) : List.lookup k ((k, v) :: l) = some v := by
  simp [List.lookup]

/-- The summary fields `_save_session_file` adds to the session record
(helper for stating lemmas). -/
def finalize (sess : SessionRec) (now : Nat) : SessionRec :=
  { sess with
    end_time := some now
    total_chunks := some sess.chunks.length
    total_samples := some (chunkCountSum sess.chunks)
    duration_seconds :=
      if sess.chunks.isEmpty then sess.duration_seconds
      else some (now - sess.start_time) }

theorem save_session_file_ok (now : Nat) (s : StorageState) (sess : SessionRec)
    (h : s.current_session = some sess) :
    save_session_file now true s =
      ({ s with
         current_session := some (finalize sess now)
         files := (s.data_dir ++ "/" ++ sess.session_id ++ "_session.json",
                   FileData.session (finalize sess now)) :: s.files },
       s.data_dir ++ "/" ++ sess.session_id ++ "_session.json") := by
  unfold save_session_file
  rw [h]
  simp [finalize, chunkCountSum]


theorem stop_session_spec (now fsize : Nat) (s : StorageState)
    (sess : SessionRec) (h : s.current_session = some sess) :
    ∃ final : SessionRec,
      (stop_session now true true fsize s).2 = some (manifestPath s sess) ∧
      load_session (manifestPath s sess) (stop_session now true true fsize s).1
        = some (FileData.session final) ∧
      (stop_session now true true fsize s).1.current_session = none ∧
      chunkCountSum final.chunks = tally s ∧
      final.total_chunks = some final.chunks.length ∧
      final.total_samples = some (chunkCountSum final.chunks) ∧
      final.end_time = some now ∧
      final.session_id = sess.session_id ∧
      final.start_time = sess.start_time ∧
      final.duration_seconds =
        (if final.chunks.isEmpty then sess.duration_seconds
         else some (now - sess.start_time)) ∧
      (s.data_buffer.isEmpty = true → final.chunks = sess.chunks) ∧
      (s.data_buffer.isEmpty = false →
        ∃ ci cf, final.chunks = sess.chunks ++ [ci] ∧
          ci.sample_count = s.data_buffer.length ∧
          (s.data_dir ++ "/" ++ ci.filename, FileData.chunk cf)
              ∈ (stop_session now true true fsize s).1.files ∧
          cf.sample_count = ci.sample_count ∧
          cf.data = s.data_buffer.map s.heap) ∧
      (chunksOnDisk s sess → ∀ c ∈ final.chunks, ∃ cf,
        (s.data_dir ++ "/" ++ c.filename, FileData.chunk cf)
            ∈ (stop_session now true true fsize s).1.files ∧
        cf.sample_count = c.sample_count) := by
  unfold stop_session
  rw [h]
  dsimp only
  by_cases hb : s.data_buffer.isEmpty = true
  · have hnil : s.data_buffer = [] := eq_nil_of_isEmpty _ hb
    rw [if_pos hb, save_session_file_ok now s sess h]
    refine ⟨finalize sess now, rfl, ?_, rfl, ?_, rfl, rfl, rfl, rfl, rfl, rfl,
      fun _ => rfl, fun hcon => Bool.noConfusion (hb.symm.trans hcon), ?_⟩
    · simp [load_session, manifestPath, lookup_cons_self]
    · simp [finalize, tally, h, hnil]
    · intro hD c hc
      obtain ⟨cf, hcf, hcnt⟩ := hD c hc
      exact ⟨cf, List.mem_cons_of_mem _ hcf, hcnt⟩
  · have hb' : s.data_buffer.isEmpty = false := by
      cases he : s.data_buffer.isEmpty
      · rfl
      · exact absurd he hb
    rw [if_neg hb, save_current_chunk_ok now fsize s sess h hb',
      save_session_file_ok now _ _ rfl]
    refine ⟨finalize
      { sess with chunks := sess.chunks ++
          [{ chunk_id := sess.chunks.length + 1
             filename := chunk_filename sess.session_id (sess.chunks.length + 1)
             start_time := s.chunk_start_time.getD 0
             end_time := now
             sample_count := s.data_buffer.length
             file_size := fsize }] } now,
      ?_, ?_, rfl, ?_, rfl, rfl, rfl, rfl, rfl, ?_,
      fun hcon => Bool.noConfusion (hb'.symm.trans hcon), ?_, ?_⟩
    · simp [manifestPath]
    · simp [load_session, manifestPath, lookup_cons_self]
    · simp [finalize, tally, h, chunkCountSum_append]
    · simp [finalize, isEmpty_append_singleton]
    · intro hcon
      refine ⟨_, { chunk_id := sess.chunks.length + 1
                   session_id := sess.session_id
                   start_time := s.chunk_start_time.getD 0
                   end_time := now
                   sample_count := s.data_buffer.length
                   data := s.data_buffer.map s.heap }, rfl, rfl, ?_, rfl, rfl⟩
      exact List.mem_cons_of_mem _ (List.mem_cons_self _ _)
    · intro hD c hc
      simp only [finalize] at hc
      rcases List.mem_append.mp hc with hold | hnew
      · obtain ⟨cf, hcf, hcnt⟩ := hD c hold
        exact ⟨cf, List.mem_cons_of_mem _ (List.mem_cons_of_mem _ hcf), hcnt⟩
      · rcases List.mem_singleton.mp hnew with rfl
        exact ⟨_, List.mem_cons_of_mem _ (List.mem_cons_self _ _), rfl⟩

/-! ## Claim theorems -/

/-- C1: for every recording session in which every chunk-file write succeeds
(and the manifest write succeeds, so that a finalized manifest exists), if N
samples are accepted via `add_data_chunk` between `start_session` and
`stop_session`, then the sum of `sample_count` over the `chunks` list of the
finalized manifest equals N — no sample lost, none duplicated — for any
values of the time threshold (`chunk_size_minutes`) and count cap
(`size_cap`), which are fields of the arbitrary initial state `s0`. -/
theorem C1_manifest_sample_conservation (s0 : StorageState)
    (info : SessionInfo) (startNow : Nat) (evs : List AddEv)
    (stopNow stopFsize : Nat) (hok : ∀ e ∈ evs, e.writeOk = true) :
    ∃ p final,
      (stop_session stopNow true true stopFsize
          (runAdds evs (start_session info startNow s0))).2 = some p ∧
      load_session p
          (stop_session stopNow true true stopFsize
            (runAdds evs (start_session info startNow s0))).1
        = some (FileData.session final) ∧
      chunkCountSum final.chunks = evs.length ∧
      final.total_samples = some (chunkCountSum final.chunks) := by
  have h1 : (start_session info startNow s0).current_session = some
      { session_id := info.session_id
        start_time := info.start_time
        chunks := []
        end_time := none
        total_chunks := none
        total_samples := none
        duration_seconds := none } := rfl
  have hd0 : chunksOnDisk (start_session info startNow s0)
      { session_id := info.session_id
        start_time := info.start_time
        chunks := []
        end_time := none
        total_chunks := none
        total_samples := none
        duration_seconds := none } :=
    fun c hc => absurd hc (List.not_mem_nil c)
  obtain ⟨sess2, hcur2, hdir2, htal2, hsid2, hst2, hdur2, hdisk2⟩ :=
    runAdds_inv evs (start_session info startNow s0) _ hok h1 hd0
  obtain ⟨final, hret, hload, hnone, hsum, htc, hts, hend, hfsid, hfst, hfdur,
      hempty, hflush, hdisk⟩ :=
    stop_session_spec stopNow stopFsize _ sess2 hcur2
  have htal1 : tally (start_session info startNow s0) = 0 := by
    simp [tally, start_session, chunkCountSum]
  refine ⟨manifestPath (runAdds evs (start_session info startNow s0)) sess2,
    final, hret, hload, ?_, hts⟩
  rw [hsum, htal2, htal1]
  simp

/-- Witness for C1 at a concrete run: one accepted sample with a succeeding
write, thresholds at the source defaults. -/
theorem C1_manifest_sample_conservation_witness :
    (∀ e ∈ [({ ref := 1, now := 3, writeOk := true, fsize := 9 } : AddEv)],
      e.writeOk = true) ∧
    ∃ p final,
      (stop_session 5 true true 11
          (runAdds [{ ref := 1, now := 3, writeOk := true, fsize := 9 }]
            (start_session { session_id := "s1", start_time := 2 } 2
              (initStorage (fun _ => []))))).2 = some p ∧
      load_session p
          (stop_session 5 true true 11
            (runAdds [{ ref := 1, now := 3, writeOk := true, fsize := 9 }]
              (start_session { session_id := "s1", start_time := 2 } 2
                (initStorage (fun _ => []))))).1
        = some (FileData.session final) ∧
      chunkCountSum final.chunks =
        [({ ref := 1, now := 3, writeOk := true, fsize := 9 } : AddEv)].length ∧
      final.total_samples = some (chunkCountSum final.chunks) :=
  ⟨by decide,
   C1_manifest_sample_conservation (initStorage (fun _ => []))
     { session_id := "s1", start_time := 2 } 2
     [{ ref := 1, now := 3, writeOk := true, fsize := 9 }] 5 11 (by decide)⟩

theorem stop_session_none (s : StorageState) (now : Nat) (w m : Bool)
    (f : Nat) (h : s.current_session = none) :
    stop_session now w m f s = (s, none) := by
  unfold stop_session
  rw [h]

theorem stop_session_closes (s : StorageState) (now : Nat) (w m : Bool)
    (f : Nat) : (stop_session now w m f s).1.current_session = none := by
  unfold stop_session
  cases h1 : s.current_session
  · exact h1
  · rfl

/-- C5: calling `stop_session` with no open session raises no exception,
returns `none` (the source prints "No active session to stop" and returns
`None`), creates no chunk file or manifest and leaves the state unchanged;
in particular a second `stop_session` right after a first one is such a
no-op, whatever the first call did. -/
theorem C5_stop_without_session_noop :
    (∀ (s : StorageState) (now : Nat) (w m : Bool) (f : Nat),
      s.current_session = none → stop_session now w m f s = (s, none)) ∧
    (∀ (s : StorageState) (now1 now2 : Nat) (w1 m1 w2 m2 : Bool) (f1 f2 : Nat),
      stop_session now2 w2 m2 f2 (stop_session now1 w1 m1 f1 s).1
        = ((stop_session now1 w1 m1 f1 s).1, none)) := by
  constructor
  · exact stop_session_none
  · intro s now1 now2 w1 m1 w2 m2 f1 f2
    exact stop_session_none _ now2 w2 m2 f2 (stop_session_closes s now1 w1 m1 f1)

/-- Witness for C5: a freshly initialized storage has no session, and the
first conjunct applies to it; the second conjunct applied after stopping an
actually open session. -/
theorem C5_stop_without_session_noop_witness :
    ((initStorage (fun _ => [])).current_session = none ∧
      stop_session 4 true true 0 (initStorage (fun _ => []))
        = (initStorage (fun _ => []), none)) ∧
    stop_session 6 true true 0
        (stop_session 5 true true 0
          (start_session { session_id := "s1", start_time := 2 } 2
            (initStorage (fun _ => [])))).1
      = ((stop_session 5 true true 0
            (start_session { session_id := "s1", start_time := 2 } 2
              (initStorage (fun _ => [])))).1, none) :=
  ⟨⟨rfl, C5_stop_without_session_noop.1 (initStorage (fun _ => [])) 4
      true true 0 rfl⟩,
   C5_stop_without_session_noop.2
     (start_session { session_id := "s1", start_time := 2 } 2
       (initStorage (fun _ => []))) 5 6 true true true true 0 0⟩

/-- C6: for every open session whose buffer is non-empty and below both the
time threshold and the count cap, `stop_session` (with the writes
succeeding) flushes that buffer as one final chunk containing exactly the
buffered samples, appended to the manifest's chunk list before the manifest
is written. -/
theorem C6_final_partial_flush (s : StorageState) (sess : SessionRec)
    (now fsize : Nat) (h : s.current_session = some sess)
    (hbuf : s.data_buffer.isEmpty = false)
    (hbelow : should_create_new_chunk now s = false) :
    ∃ final ci cf,
      load_session (manifestPath s sess)
          (stop_session now true true fsize s).1
        = some (FileData.session final) ∧
      final.chunks = sess.chunks ++ [ci] ∧
      ci.sample_count = s.data_buffer.length ∧
      (s.data_dir ++ "/" ++ ci.filename, FileData.chunk cf)
          ∈ (stop_session now true true fsize s).1.files ∧
      cf.sample_count = ci.sample_count ∧
      cf.data = s.data_buffer.map s.heap := by
  obtain ⟨final, hret, hload, hnone, hsum, htc, hts, hend, hfsid, hfst, hfdur,
      hempty, hflush, hdisk⟩ := stop_session_spec now fsize s sess h
  obtain ⟨ci, cf, hch, hcnt, hmem, hcfc, hcfd⟩ := hflush hbuf
  exact ⟨final, ci, cf, hload, hch, hcnt, hmem, hcfc, hcfd⟩

/-- Witness for C6: a session with two buffered samples, below both
thresholds. -/
theorem C6_final_partial_flush_witness :
    (let s := runAdds
        [{ ref := 1, now := 3, writeOk := true, fsize := 9 },
         { ref := 2, now := 3, writeOk := true, fsize := 9 }]
        (start_session { session_id := "s1", start_time := 2 } 2
          (initStorage (fun _ => [])))
     ∃ sess : SessionRec, s.current_session = some sess ∧
       s.data_buffer.isEmpty = false ∧
       should_create_new_chunk 4 s = false ∧
       ∃ final ci cf,
         load_session (manifestPath s sess) (stop_session 4 true true 7 s).1
           = some (FileData.session final) ∧
         final.chunks = sess.chunks ++ [ci] ∧
         ci.sample_count = s.data_buffer.length ∧
         (s.data_dir ++ "/" ++ ci.filename, FileData.chunk cf)
             ∈ (stop_session 4 true true 7 s).1.files ∧
         cf.sample_count = ci.sample_count ∧
         cf.data = s.data_buffer.map s.heap) :=
  ⟨{ session_id := "s1"
     start_time := 2
     chunks := []
     end_time := none
     total_chunks := none
     total_samples := none
     duration_seconds := none },
   rfl, rfl, rfl,
   C6_final_partial_flush _ _ 4 7 rfl rfl rfl⟩

/-- C7 counterexample: a session started and stopped with no samples is
finalized with `total_chunks`/`total_samples` present but NO
`duration_seconds` key in its manifest (the source only sets it when the
`chunks` list is non-empty), contradicting the claim that every finalized
manifest carries a duration field equal to end time minus start time
(here 9 - 2 = 7). -/
theorem C7_counterexample :
    load_session "data/s1_session.json"
        (stop_session 9 true true 0
          (start_session { session_id := "s1", start_time := 2 } 2
            (initStorage (fun _ => [])))).1
      = some (FileData.session
          { session_id := "s1"
            start_time := 2
            chunks := []
            end_time := some 9
            total_chunks := some 0
            total_samples := some 0
            duration_seconds := none }) := by
  decide

/-- C7 as amended: the manifest written by `stop_session` always carries
`total_chunks` equal to the number of chunk entries, `total_samples` equal
to the sum of their `sample_count`s, and `end_time`; `duration_seconds`
equal to end time minus start time is present exactly when the final chunk
list is non-empty, and absent (no such key) otherwise. -/
theorem C7_manifest_summary_fields (s : StorageState) (sess : SessionRec)
    (now fsize : Nat) (h : s.current_session = some sess)
    (hdur : sess.duration_seconds = none) :
    ∃ final,
      load_session (manifestPath s sess)
          (stop_session now true true fsize s).1
        = some (FileData.session final) ∧
      final.total_chunks = some final.chunks.length ∧
      final.total_samples = some (chunkCountSum final.chunks) ∧
      final.end_time = some now ∧
      final.duration_seconds =
        (if final.chunks.isEmpty then none else some (now - sess.start_time)) := by
  obtain ⟨final, hret, hload, hnone, hsum, htc, hts, hend, hfsid, hfst, hfdur,
      hempty, hflush, hdisk⟩ := stop_session_spec now fsize s sess h
  refine ⟨final, hload, htc, hts, hend, ?_⟩
  rw [hfdur, hdur]

/-- Witness for C7 as amended, on a session holding one buffered sample. -/
theorem C7_manifest_summary_fields_witness :
    (let s := runAdds [{ ref := 1, now := 3, writeOk := true, fsize := 9 }]
        (start_session { session_id := "s1", start_time := 2 } 2
          (initStorage (fun _ => [])))
     ∃ sess : SessionRec, s.current_session = some sess ∧
       sess.duration_seconds = none ∧
       ∃ final,
         load_session (manifestPath s sess) (stop_session 9 true true 4 s).1
           = some (FileData.session final) ∧
         final.total_chunks = some final.chunks.length ∧
         final.total_samples = some (chunkCountSum final.chunks) ∧
         final.end_time = some 9 ∧
         final.duration_seconds =
           (if final.chunks.isEmpty then none else some (9 - sess.start_time))) :=
  ⟨{ session_id := "s1"
     start_time := 2
     chunks := []
     end_time := none
     total_chunks := none
     total_samples := none
     duration_seconds := none },
   rfl, rfl,
   C7_manifest_summary_fields _ _ 9 4 rfl rfl⟩

/-- C8: for a session recorded and finalized with all writes succeeding,
loading the manifest path returned by `stop_session` back through
`load_session` yields a session record whose chunk count, per-chunk
`sample_count`s (each matching the chunk file persisted on disk for it) and
`total_samples` agree with what was recorded: N accepted samples in all. -/
theorem C8_round_trip (s0 : StorageState) (info : SessionInfo)
    (startNow : Nat) (evs : List AddEv) (stopNow stopFsize : Nat)
    (hok : ∀ e ∈ evs, e.writeOk = true) :
    ∃ p final,
      (stop_session stopNow true true stopFsize
          (runAdds evs (start_session info startNow s0))).2 = some p ∧
      load_session p
          (stop_session stopNow true true stopFsize
            (runAdds evs (start_session info startNow s0))).1
        = some (FileData.session final) ∧
      final.total_chunks = some final.chunks.length ∧
      final.total_samples = some (chunkCountSum final.chunks) ∧
      chunkCountSum final.chunks = evs.length ∧
      ∀ c ∈ final.chunks, ∃ cf : ChunkFile,
        (s0.data_dir ++ "/" ++ c.filename, FileData.chunk cf)
            ∈ (stop_session stopNow true true stopFsize
                (runAdds evs (start_session info startNow s0))).1.files ∧
        cf.sample_count = c.sample_count := by
  have h1 : (start_session info startNow s0).current_session = some
      { session_id := info.session_id
        start_time := info.start_time
        chunks := []
        end_time := none
        total_chunks := none
        total_samples := none
        duration_seconds := none } := rfl
  have hd0 : chunksOnDisk (start_session info startNow s0)
      { session_id := info.session_id
        start_time := info.start_time
        chunks := []
        end_time := none
        total_chunks := none
        total_samples := none
        duration_seconds := none } :=
    fun c hc => absurd hc (List.not_mem_nil c)
  obtain ⟨sess2, hcur2, hdir2, htal2, hsid2, hst2, hdur2, hdisk2⟩ :=
    runAdds_inv evs (start_session info startNow s0) _ hok h1 hd0
  obtain ⟨final, hret, hload, hnone, hsum, htc, hts, hend, hfsid, hfst, hfdur,
      hempty, hflush, hdisk⟩ :=
    stop_session_spec stopNow stopFsize _ sess2 hcur2
  have htal1 : tally (start_session info startNow s0) = 0 := by
    simp [tally, start_session, chunkCountSum]
  refine ⟨manifestPath (runAdds evs (start_session info startNow s0)) sess2,
    final, hret, hload, htc, hts, ?_, ?_⟩
  · rw [hsum, htal2, htal1]
    simp
  · intro c hc
    obtain ⟨cf, hmem, hcnt⟩ := hdisk hdisk2 c hc
    have hdd : (runAdds evs (start_session info startNow s0)).data_dir
        = s0.data_dir := hdir2
    rw [hdd] at hmem
    exact ⟨cf, hmem, hcnt⟩

/-- Witness for C8 at a concrete two-sample run with succeeding writes. -/
theorem C8_round_trip_witness :
    (∀ e ∈ [({ ref := 1, now := 3, writeOk := true, fsize := 9 } : AddEv),
            { ref := 2, now := 4, writeOk := true, fsize := 9 }],
      e.writeOk = true) ∧
    ∃ p final,
      (stop_session 5 true true 11
          (runAdds [{ ref := 1, now := 3, writeOk := true, fsize := 9 },
                    { ref := 2, now := 4, writeOk := true, fsize := 9 }]
            (start_session { session_id := "s1", start_time := 2 } 2
              (initStorage (fun _ => []))))).2 = some p ∧
      load_session p
          (stop_session 5 true true 11
            (runAdds [{ ref := 1, now := 3, writeOk := true, fsize := 9 },
                      { ref := 2, now := 4, writeOk := true, fsize := 9 }]
              (start_session { session_id := "s1", start_time := 2 } 2
                (initStorage (fun _ => []))))).1
        = some (FileData.session final) ∧
      final.total_chunks = some final.chunks.length ∧
      final.total_samples = some (chunkCountSum final.chunks) ∧
      chunkCountSum final.chunks =
        [({ ref := 1, now := 3, writeOk := true, fsize := 9 } : AddEv),
         { ref := 2, now := 4, writeOk := true, fsize := 9 }].length ∧
      ∀ c ∈ final.chunks, ∃ cf : ChunkFile,
        ((initStorage (fun _ => [])).data_dir ++ "/" ++ c.filename,
            FileData.chunk cf)
            ∈ (stop_session 5 true true 11
                (runAdds [{ ref := 1, now := 3, writeOk := true, fsize := 9 },
                          { ref := 2, now := 4, writeOk := true, fsize := 9 }]
                  (start_session { session_id := "s1", start_time := 2 } 2
                    (initStorage (fun _ => []))))).1.files ∧
        cf.sample_count = c.sample_count :=
  ⟨by decide,
   C8_round_trip (initStorage (fun _ => []))
     { session_id := "s1", start_time := 2 } 2
     [{ ref := 1, now := 3, writeOk := true, fsize := 9 },
      { ref := 2, now := 4, writeOk := true, fsize := 9 }] 5 11 (by decide)⟩

/-- Observer: the per-chunk `sample_count`s of the manifest stored at a
path (empty list when no manifest is there). -/
def sampleCountsAt (path : String) (s : StorageState) : List Nat :=
  match load_session path s with
  | some (FileData.session r) => r.chunks.map (fun c => c.sample_count)
  | _ => []

/-- Observer: the `total_samples` field of the manifest stored at a path. -/
def totalSamplesAt (path : String) (s : StorageState) : Option Nat :=
  match load_session path s with
  | some (FileData.session r) => r.total_samples
  | _ => none

/-- A storage whose count cap is 3 and whose time threshold is effectively
infinite, as in the spec's rotation example. -/
def capThreeBase : StorageState :=
  { heap := fun _ => [("timestamp", "t")]
    files := []
    data_dir := "data"
    chunk_size_minutes := 1000000
    size_cap := 3
    current_session := none
    chunk_start_time := none
    data_buffer := [] }

/-- Samples S1..S7 fed at one instant. -/
def capThreeEvents : List AddEv :=
  [{ ref := 1, now := 0, writeOk := true, fsize := 0 },
   { ref := 2, now := 0, writeOk := true, fsize := 0 },
   { ref := 3, now := 0, writeOk := true, fsize := 0 },
   { ref := 4, now := 0, writeOk := true, fsize := 0 },
   { ref := 5, now := 0, writeOk := true, fsize := 0 },
   { ref := 6, now := 0, writeOk := true, fsize := 0 },
   { ref := 7, now := 0, writeOk := true, fsize := 0 }]

/-- The spec example run: start, feed S1..S7, stop. -/
def capThreeRun : StorageState × Option String :=
  stop_session 0 true true 0
    (runAdds capThreeEvents
      (start_session { session_id := "s1", start_time := 0 } 0 capThreeBase))

/-- C3 counterexample: with count cap 3 and a huge time threshold, feeding
S1..S7 and stopping yields TWO chunks with sample counts 4 and 3 — not the
three chunks 3, 3, 1 the claim predicts — because the source appends the
sample first and rotates only when `len(buffer) > cap`, flushing the
triggering sample with the old buffer. -/
theorem C3_counterexample :
    sampleCountsAt "data/s1_session.json" capThreeRun.1 = [4, 3] ∧
    sampleCountsAt "data/s1_session.json" capThreeRun.1 ≠ [3, 3, 1] := by
  decide

/-- C3 as amended: a sample whose arrival pushes a threshold past its limit
is flushed WITH the chunk being rotated out (append-then-check), leaving
the post-rotation buffer empty; with count cap 3 and a huge time threshold,
S1..S7 followed by `stop_session` yields chunks with sample counts 4 and 3
and `total_samples` 7 — still no sample lost or duplicated. -/
theorem C3_rotation_flushes_trigger :
    (∀ (s : StorageState) (sess : SessionRec) (ref now fsize : Nat),
      s.current_session = some sess →
      should_create_new_chunk now
          { s with heap := stampHeap s ref now,
                   data_buffer := s.data_buffer ++ [ref] } = true →
      ∃ sess2 ci,
        (add_data_chunk ref now true fsize s).current_session = some sess2 ∧
        (add_data_chunk ref now true fsize s).data_buffer = [] ∧
        sess2.chunks = sess.chunks ++ [ci] ∧
        ci.sample_count = s.data_buffer.length + 1) ∧
    sampleCountsAt "data/s1_session.json" capThreeRun.1 = [4, 3] ∧
    totalSamplesAt "data/s1_session.json" capThreeRun.1 = some 7 := by
  refine ⟨?_, by decide, by decide⟩
  intro s sess ref now fsize h hc
  rw [add_data_chunk_eq ref now true fsize s sess h]
  unfold rotateIfNeeded
  rw [if_pos hc, save_current_chunk_ok now fsize
    { s with heap := stampHeap s ref now, data_buffer := s.data_buffer ++ [ref] }
    sess h (isEmpty_append_singleton _ _)]
  refine ⟨_, _, rfl, rfl, rfl, ?_⟩
  simp

/-- Witness for C3's general rotation part: the state holding S1..S3 with
cap 3, where accepting S4 triggers the rotation; the concrete parts of the
theorem are closed. -/
theorem C3_rotation_flushes_trigger_witness :
    (let s := runAdds
        [{ ref := 1, now := 0, writeOk := true, fsize := 0 },
         { ref := 2, now := 0, writeOk := true, fsize := 0 },
         { ref := 3, now := 0, writeOk := true, fsize := 0 }]
        (start_session { session_id := "s1", start_time := 0 } 0 capThreeBase)
     s.current_session = some
        { session_id := "s1"
          start_time := 0
          chunks := []
          end_time := none
          total_chunks := none
          total_samples := none
          duration_seconds := none } ∧
     should_create_new_chunk 0
        { s with heap := stampHeap s 4 0,
                 data_buffer := s.data_buffer ++ [4] } = true ∧
     ∃ sess2 ci,
       (add_data_chunk 4 0 true 0 s).current_session = some sess2 ∧
       (add_data_chunk 4 0 true 0 s).data_buffer = [] ∧
       sess2.chunks =
         ({ session_id := "s1"
            start_time := 0
            chunks := []
            end_time := none
            total_chunks := none
            total_samples := none
            duration_seconds := none } : SessionRec).chunks ++ [ci] ∧
       ci.sample_count = s.data_buffer.length + 1) :=
  ⟨by decide, by decide,
   C3_rotation_flushes_trigger.1 _ _ 4 0 0 (by decide) (by decide)⟩

/-- C4 counterexample: a flush whose chunk-file write raises leaves the
session's `chunks` list EMPTY — no ChunkRef with best-effort byte size is
appended, because the `append` sits inside the failed `try` — contradicting
the claim that the entry is still recorded.  (The session does survive.) -/
theorem C4_counterexample :
    (save_current_chunk 9 false 0
        (runAdds [{ ref := 1, now := 3, writeOk := true, fsize := 0 }]
          (start_session { session_id := "s1", start_time := 2 } 2
            (initStorage (fun _ => []))))).current_session
      = some
        { session_id := "s1"
          start_time := 2
          chunks := []
          end_time := none
          total_chunks := none
          total_samples := none
          duration_seconds := none } ∧
    (save_current_chunk 9 false 0
        (runAdds [{ ref := 1, now := 3, writeOk := true, fsize := 0 }]
          (start_session { session_id := "s1", start_time := 2 } 2
            (initStorage (fun _ => []))))).files = [] := by
  decide

/-- C4 as amended: when the chunk-file write raises, the failure is caught
and logged and the flush leaves the storage state entirely unchanged — no
chunk file appears, no ChunkRef is appended (so no best-effort byte size is
recorded either) — and the recording session survives: an `add_data_chunk`
whose rotation flush fails still leaves the session open. -/
theorem C4_failed_write_drops_chunkref :
    (∀ (now fsize : Nat) (s : StorageState),
      save_current_chunk now false fsize s = s) ∧
    (∀ (ref now fsize : Nat) (s : StorageState) (sess : SessionRec),
      s.current_session = some sess →
      ∃ sess2, (add_data_chunk ref now false fsize s).current_session
        = some sess2) := by
  refine ⟨save_current_chunk_fail, ?_⟩
  intro ref now fsize s sess h
  rw [add_data_chunk_eq ref now false fsize s sess h]
  unfold rotateIfNeeded
  by_cases hc : should_create_new_chunk now
      { s with heap := stampHeap s ref now,
               data_buffer := s.data_buffer ++ [ref] } = true
  · rw [if_pos hc, save_current_chunk_fail]
    exact ⟨sess, h⟩
  · rw [if_neg hc]
    exact ⟨sess, h⟩

/-- Witness for C4 as amended: a concrete failed flush of a one-sample
buffer, and a concrete failed rotation inside `add_data_chunk` (cap 3,
buffer already holding three samples). -/
theorem C4_failed_write_drops_chunkref_witness :
    save_current_chunk 9 false 0
        (runAdds [{ ref := 1, now := 3, writeOk := true, fsize := 0 }]
          (start_session { session_id := "s1", start_time := 2 } 2
            (initStorage (fun _ => []))))
      = runAdds [{ ref := 1, now := 3, writeOk := true, fsize := 0 }]
          (start_session { session_id := "s1", start_time := 2 } 2
            (initStorage (fun _ => []))) ∧
    ∃ sess2, (add_data_chunk 4 0 false 0
        (runAdds
          [{ ref := 1, now := 0, writeOk := true, fsize := 0 },
           { ref := 2, now := 0, writeOk := true, fsize := 0 },
           { ref := 3, now := 0, writeOk := true, fsize := 0 }]
          (start_session { session_id := "s1", start_time := 0 } 0
            capThreeBase))).current_session = some sess2 :=
  ⟨C4_failed_write_drops_chunkref.1 9 0 _,
   C4_failed_write_drops_chunkref.2 4 0 0 _
     { session_id := "s1"
       start_time := 0
       chunks := []
       end_time := none
       total_chunks := none
       total_samples := none
       duration_seconds := none } (by decide)⟩

/-- C2 counterexample: one cycle with both callbacks registered, a sample
collected, and a live callback that raises — the exception is caught by the
single `except` of the loop body, so the recording callback never receives
that cycle's sample, contradicting the claim that it still does. -/
theorem C2_counterexample :
    (monitoringCycle true true
      { sample := some 1, liveRaises := true, recRaises := false }).liveGot
        = some 1 ∧
    (monitoringCycle true true
      { sample := some 1, liveRaises := true, recRaises := false }).recGot
        = none := by
  decide

/-- C2 as amended: both callbacks sit in ONE `try` per cycle, live first.
If the live callback raises on a cycle, the recording callback does not
receive that cycle's sample (it is skipped, not retried); the loop itself
survives and on every cycle whose live callback does not raise the
recording callback receives the sample — so over a whole run the recording
callback receives exactly the samples of the cycles in which the live
callback did not raise, and an always-failing live consumer starves the
recording consumer entirely while both are registered. -/
theorem C2_live_failure_skips_recording :
    (∀ (c : LoopCycle) (x : Nat), c.sample = some x → c.liveRaises = true →
      (monitoringCycle true true c).recGot = none) ∧
    (∀ (c : LoopCycle) (x : Nat), c.sample = some x → c.liveRaises = false →
      (monitoringCycle true true c).recGot = some x) ∧
    (∀ cycles : List LoopCycle,
      recDelivered true true cycles =
        (cycles.filter (fun c => !c.liveRaises)).filterMap
          (fun c => c.sample)) := by
  refine ⟨?_, ?_, ?_⟩
  · intro c x hs hr
    simp [monitoringCycle, hs, hr]
  · intro c x hs hr
    simp [monitoringCycle, hs, hr]
  · intro cycles
    induction cycles with
    | nil => rfl
    | cons c t ih =>
        have hrec : recDelivered true true (c :: t)
            = ((monitoringCycle true true c).recGot.toList)
              ++ recDelivered true true t := by
          cases hrg : (monitoringCycle true true c).recGot <;>
            simp [recDelivered, monitoringRun, List.filterMap_cons, hrg]
        rw [hrec, ih]
        cases hs : c.sample with
        | none =>
            cases hr : c.liveRaises <;>
              simp [monitoringCycle, hs, List.filter_cons, hr,
                List.filterMap_cons]
        | some x =>
            cases hr : c.liveRaises <;>
              simp [monitoringCycle, hs, hr, List.filter_cons,
                List.filterMap_cons]

/-- Witness for C2 as amended: concrete cycles for both per-cycle parts
(the run-level part is closed over all schedules, instantiated implicitly
by the quantifier). -/
theorem C2_live_failure_skips_recording_witness :
    (({ sample := some 5, liveRaises := true, recRaises := false }
        : LoopCycle).sample = some 5 ∧
      ({ sample := some 5, liveRaises := true, recRaises := false }
        : LoopCycle).liveRaises = true ∧
      (monitoringCycle true true
        { sample := some 5, liveRaises := true, recRaises := false }).recGot
          = none) ∧
    (({ sample := some 6, liveRaises := false, recRaises := false }
        : LoopCycle).sample = some 6 ∧
      ({ sample := some 6, liveRaises := false, recRaises := false }
        : LoopCycle).liveRaises = false ∧
      (monitoringCycle true true
        { sample := some 6, liveRaises := false, recRaises := false }).recGot
          = some 6) ∧
    recDelivered true true
        [{ sample := some 1, liveRaises := true, recRaises := false },
         { sample := some 2, liveRaises := false, recRaises := true }] =
      ([({ sample := some 1, liveRaises := true, recRaises := false }
          : LoopCycle),
        { sample := some 2, liveRaises := false, recRaises := true }].filter
          (fun c => !c.liveRaises)).filterMap (fun c => c.sample) :=
  ⟨⟨rfl, rfl, C2_live_failure_skips_recording.1 _ 5 rfl rfl⟩,
   ⟨rfl, rfl, C2_live_failure_skips_recording.2.1 _ 6 rfl rfl⟩,
   C2_live_failure_skips_recording.2.2 _⟩

theorem connectPollLoop_agree (hasState : Bool) (r1 r2 : Nat → StateRead)
    (fuel i : Nat) (h : ∀ j, i ≤ j → j < i + fuel → r1 j = r2 j) :
    connectPollLoop hasState r1 fuel i = connectPollLoop hasState r2 fuel i := by
  induction fuel generalizing i with
  | zero => rfl
  | succ n ih =>
      have hi : r1 i = r2 i := h i (le_refl i) (by omega)
      unfold connectPollLoop
      rw [hi]
      by_cases hc : (hasState && decide (r2 i = StateRead.val SensorState.inRange)) = true
      · rw [if_pos hc, if_pos hc]
      · rw [if_neg hc, if_neg hc]
        exact ih (i + 1) (fun j hj1 hj2 => h j (by omega) (by omega))

theorem connectPollLoop_timeout (hasState : Bool) (r : Nat → StateRead)
    (fuel i : Nat)
    (h : ∀ j, i ≤ j → j < i + fuel →
      ¬(hasState = true ∧ r j = StateRead.val SensorState.inRange)) :
    connectPollLoop hasState r fuel i = false := by
  induction fuel generalizing i with
  | zero => rfl
  | succ n ih =>
      unfold connectPollLoop
      have hc : (hasState && decide (r i = StateRead.val SensorState.inRange))
          = false := by
        have := h i (le_refl i) (by omega)
        cases hS : hasState
        · rfl
        · simp only [Bool.true_and]
          exact decide_eq_false (fun he => this ⟨hS, he⟩)
      rw [hc]
      simp only [Bool.false_eq_true, if_false]
      exact ih (i + 1) (fun j hj1 hj2 => h j (by omega) (by omega))

/-- C9: `connect_device` always terminates within the bounded wait: its
result is fully determined by the environment and the first
`max_wait * 10 + 1` reads of the sensor state (one pre-loop check plus at
most 150 polling attempts); whenever no read in that window observes
`StateInRange` — including when every read raises — it returns `False`
rather than hanging or raising; and it returns `True` on success. -/
theorem C9_connect_device_bounded_wait :
    (∀ e1 e2 : ConnectEnv,
      e1.deviceKnown = e2.deviceKnown →
      e1.hasConnectAttr = e2.hasConnectAttr →
      e1.sdkAndScanner = e2.sdkAndScanner →
      e1.createOk = e2.createOk →
      e1.hasState = e2.hasState →
      (∀ i, i ≤ max_wait * 10 → e1.reads i = e2.reads i) →
      connect_device e1 = connect_device e2) ∧
    (∀ e : ConnectEnv,
      (∀ i, i ≤ max_wait * 10 →
        ¬(e.hasState = true ∧ e.reads i = StateRead.val SensorState.inRange)) →
      connect_device e = false) ∧
    (∀ e : ConnectEnv, e.deviceKnown = true → e.hasState = true →
      e.reads 0 = StateRead.val SensorState.inRange →
      (e.hasConnectAttr = true ∨ (e.sdkAndScanner = true ∧ e.createOk = true)) →
      connect_device e = true) := by
  refine ⟨?_, ?_, ?_⟩
  · rintro ⟨k1, a1, d1, c1, s1, r1⟩ ⟨k2, a2, d2, c2, s2, r2⟩ hk ha hd hc hs hr
    simp only at hk ha hd hc hs hr
    subst hk ha hd hc hs
    unfold connect_device
    simp only
    cases k1
    · rfl
    · cases s1
      · cases a1 <;> cases d1 <;> cases c1 <;>
          first
            | rfl
            | exact connectPollLoop_agree false r1 r2 (max_wait * 10) 1
                (fun j hj1 hj2 => hr j (by
                  simp only [max_wait] at hj2 ⊢
                  omega))
      · have h0 : r1 0 = r2 0 := hr 0 (Nat.zero_le _)
        cases a1 <;> cases d1 <;> cases c1 <;>
          first
            | rfl
            | rw [h0, connectPollLoop_agree true r1 r2 (max_wait * 10) 1
                (fun j hj1 hj2 => hr j (by
                  simp only [max_wait] at hj2 ⊢
                  omega))]
  · rintro ⟨k, a, d, c, sS, r⟩ h
    simp only at h
    unfold connect_device
    simp only
    have hloop : connectPollLoop sS r (max_wait * 10) 1 = false :=
      connectPollLoop_timeout sS r (max_wait * 10) 1
        (fun j hj1 hj2 => h j (by
          simp only [max_wait] at hj2 ⊢
          omega))
    cases k
    · rfl
    · cases sS
      · cases a <;> cases d <;> cases c <;> first | rfl | exact hloop
      · cases a <;> cases d <;> cases c <;>
          first
            | rfl
            | (cases hr0 : r 0 with
               | err => rfl
               | val st =>
                   have hst : ¬ st = SensorState.inRange := by
                     intro hst
                     exact h 0 (Nat.zero_le _) ⟨rfl, by rw [hr0, hst]⟩
                   show (if st = SensorState.inRange then true
                       else connectPollLoop true r (max_wait * 10) 1) = false
                   rw [if_neg hst]
                   exact hloop)
  · rintro ⟨k, a, d, c, sS, r⟩ hk hs h0 hor
    simp only at hk hs h0 hor
    subst hk hs
    unfold connect_device
    simp only
    rcases hor with ha | ⟨hd', hc'⟩
    · subst ha
      rw [h0]
      rfl
    · subst hd' hc'
      cases a <;> (rw [h0]; rfl)

/-- Witness for C9: a concrete pair of environments agreeing on the window
(first part), a concrete environment whose reads always raise (second
part), and a concrete immediately-in-range environment (third part). -/
theorem C9_connect_device_bounded_wait_witness :
    connect_device
        { deviceKnown := true, hasConnectAttr := true, sdkAndScanner := true,
          createOk := true, hasState := true,
          reads := fun _ => StateRead.err }
      = connect_device
        { deviceKnown := true, hasConnectAttr := true, sdkAndScanner := true,
          createOk := true, hasState := true,
          reads := fun i => if i ≤ max_wait * 10 then StateRead.err
            else StateRead.val SensorState.inRange } ∧
    connect_device
        { deviceKnown := true, hasConnectAttr := true, sdkAndScanner := true,
          createOk := true, hasState := true,
          reads := fun _ => StateRead.err }
      = false ∧
    connect_device
        { deviceKnown := true, hasConnectAttr := true, sdkAndScanner := true,
          createOk := true, hasState := true,
          reads := fun _ => StateRead.val SensorState.inRange }
      = true :=
  ⟨C9_connect_device_bounded_wait.1 _ _ rfl rfl rfl rfl rfl
      (fun i hi => by simp [hi]),
   C9_connect_device_bounded_wait.2.1 _
      (fun i hi hcontra => by
        rcases hcontra with ⟨hS, hread⟩
        exact StateRead.noConfusion hread),
   C9_connect_device_bounded_wait.2.2 _ rfl rfl rfl (Or.inl rfl)⟩

theorem save_current_chunk_heap (now : Nat) (w : Bool) (fsize : Nat)
    (s : StorageState) : (save_current_chunk now w fsize s).heap = s.heap := by
  unfold save_current_chunk
  cases h : s.current_session with
  | none => rfl
  | some sess =>
      dsimp only
      by_cases hb : s.data_buffer.isEmpty = true
      · rw [if_pos hb]
      · rw [if_neg hb]
        cases w <;> rfl

theorem rotateIfNeeded_heap (now : Nat) (w : Bool) (fsize : Nat)
    (s1 : StorageState) : (rotateIfNeeded now w fsize s1).heap = s1.heap := by
  unfold rotateIfNeeded
  by_cases hc : should_create_new_chunk now s1 = true
  · rw [if_pos hc]
    show (save_current_chunk now w fsize s1).heap = s1.heap
    exact save_current_chunk_heap now w fsize s1
  · rw [if_neg hc]

theorem dictHasKey_insert (d : Dict) (k v : String) :
    dictHasKey (dictInsert d k v) k = true := by
  simp [dictHasKey, dictInsert]

/-- C10: `add_data_chunk` mutates its argument in place.  During an open
session, when the caller's dict lacks a `'timestamp'` key, the very object
the caller passed (the heap cell at `ref`) gains a `'timestamp'` entry —
the caller observes the mutation — and (when no rotation fires on this
call) the buffer's new last element is that same reference, not a copy. -/
theorem C10_add_data_chunk_mutates_in_place (s : StorageState)
    (sess : SessionRec) (ref now fsize : Nat) (w : Bool)
    (h : s.current_session = some sess)
    (hk : dictHasKey (s.heap ref) "timestamp" = false) :
    (add_data_chunk ref now w fsize s).heap ref
        = dictInsert (s.heap ref) "timestamp" (toString now) ∧
    dictHasKey ((add_data_chunk ref now w fsize s).heap ref) "timestamp"
        = true ∧
    (should_create_new_chunk now
        { s with heap := stampHeap s ref now,
                 data_buffer := s.data_buffer ++ [ref] } = false →
      (add_data_chunk ref now w fsize s).data_buffer
        = s.data_buffer ++ [ref]) := by
  rw [add_data_chunk_eq ref now w fsize s sess h]
  have hheap : (rotateIfNeeded now w fsize
      { s with heap := stampHeap s ref now,
               data_buffer := s.data_buffer ++ [ref] }).heap
      = stampHeap s ref now := rotateIfNeeded_heap now w fsize _
  have hstamp : stampHeap s ref now ref
      = dictInsert (s.heap ref) "timestamp" (toString now) := by
    unfold stampHeap
    rw [hk]
    simp [Function.update]
  refine ⟨?_, ?_, ?_⟩
  · rw [hheap, hstamp]
  · rw [hheap, hstamp, dictHasKey_insert]
  · intro hc
    unfold rotateIfNeeded
    rw [hc]
    rfl

/-- Witness for C10: a fresh session and a dict with no timestamp key; the
no-rotation premise holds at the source-default thresholds. -/
theorem C10_add_data_chunk_mutates_in_place_witness :
    (let s := start_session { session_id := "s1", start_time := 2 } 2
        (initStorage (fun _ => []))
     s.current_session = some
        { session_id := "s1"
          start_time := 2
          chunks := []
          end_time := none
          total_chunks := none
          total_samples := none
          duration_seconds := none } ∧
     dictHasKey (s.heap 1) "timestamp" = false ∧
     ((add_data_chunk 1 3 true 0 s).heap 1
          = dictInsert (s.heap 1) "timestamp" (toString 3) ∧
      dictHasKey ((add_data_chunk 1 3 true 0 s).heap 1) "timestamp" = true ∧
      (should_create_new_chunk 3
          { s with heap := stampHeap s 1 3,
                   data_buffer := s.data_buffer ++ [1] } = false →
        (add_data_chunk 1 3 true 0 s).data_buffer
          = s.data_buffer ++ [1]))) :=
  ⟨rfl, rfl,
   C10_add_data_chunk_mutates_in_place _ _ 1 3 0 true rfl rfl⟩
